import Mathlib

/-!
Shallow embedding of the benchmark script `examples/testudf.py`.

The script is sequential glue code: it opens a `LiveContext`, constructs a
`DectrisAcquisition` descriptor with fixed keyword parameters, initializes the
descriptor against the context's executor, runs `SumSigUDF` once as a warm-up,
then enters a `perf_utils.perf` scope in which it reads `time.time()`, runs the
UDF a second time, reads `time.time()` again and prints the difference; after
the scope it closes the context and prints `"done"`.

All real work happens in external libraries, so the embedding abstracts every
external call as a field of an environment record that either returns a value
or raises (`Except`).  The script itself is embedded as a function from such an
environment to the trace of external calls it performs (in order, with the
arguments it passes) together with the error it propagates, if any.  The
Python `with` statement's guarantee — the scope's exit action runs however the
body is left, and a body exception then propagates — is part of the embedding
of the `with` line, mirroring the language semantics the source relies on.
-/

namespace TestUdf

/-- Python runtime values, as far as the trigger callback is concerned. -/
inductive PyValue where
  | pynone : PyValue
  | pyint : Int → PyValue
  | pystr : String → PyValue
deriving Repr, DecidableEq

/-- The trigger callback the script passes to the acquisition constructor.
In the source it is the literal `lambda x: None`; it is defunctionalized here
so that parameter records stay decidably comparable. -/
inductive TriggerFn where
  | constNone : TriggerFn
deriving Repr, DecidableEq

/-- Semantics of a trigger callback: `constNone` is `lambda x: None`. -/
def TriggerFn.apply : TriggerFn → PyValue → PyValue
  | .constNone, _ => PyValue.pynone

/-- The keyword parameters of the `DectrisAcquisition(...)` constructor call,
exactly the keywords appearing in the source and no others. -/
structure AcqParams where
  api_host : String
  api_port : Nat
  data_host : String
  data_port : Nat
  nav_shape : Nat × Nat
  trigger_mode : String
  trigger : TriggerFn
  frames_per_partition : Nat
deriving Repr, DecidableEq

/-- The literal argument record of the one `DectrisAcquisition(...)` call in
the script. -/
def scriptParams : AcqParams :=
  { api_host := "localhost"
    api_port := 8910
    data_host := "localhost"
    data_port := 9999
    nav_shape := (256, 256)
    trigger_mode := "exte"
    trigger := TriggerFn.constNone
    frames_per_partition := 1024 }

/-- The execution context handle returned by `LiveContext()`: the script only
ever reads its `executor` attribute (and calls `run_udf` / `close` on it). -/
structure Ctx where
  executor : Nat
deriving Repr, DecidableEq

/-- Results of the external calls the script makes, each fallible.  Handles
(context, acquisition, dataset) are abstract identifiers; UDF runs return an
analysis result; the timer returns a reading per call site. -/
structure Env (ε : Type) where
  mkContext : Except ε Ctx
  mkAcq : AcqParams → Except ε Nat
  initAcq : Nat → Nat → Except ε Nat
  runUdf : Nat → Nat → Except ε Int
  perfEnter : Except ε Unit
  timeNow : Nat → Except ε Int
  closeCtx : Except ε Unit

/-- One observable step of the script: an external call being made, with the
arguments the script passes to it, or an output being printed. -/
inductive Event where
  | ctxOpen : Event
  | acqConstruct : AcqParams → Event
  | acqInit : Nat → Nat → Event
  | runUdf : Nat → Nat → String → Event
  | perfEnter : String → String → Event
  | timeRead : Nat → Event
  | printVal : Int → Event
  | perfExit : Event
  | ctxClose : Event
  | printStr : String → Event
deriving Repr, DecidableEq

/-- The body of the `with perf_utils.perf(...)` statement: read the timer,
run the UDF a second time, read the timer again, print the difference. -/
def withBody (env : Env ε) (ds : Nat) : List Event × Option ε :=
  match env.timeNow 0 with
  | .error e => ([.timeRead 0], some e)
  | .ok t0 =>
    match env.runUdf 1 ds with
    | .error e => ([.timeRead 0, .runUdf 1 ds "SumSigUDF"], some e)
    | .ok _ =>
      match env.timeNow 1 with
      | .error e => ([.timeRead 0, .runUdf 1 ds "SumSigUDF", .timeRead 1], some e)
      | .ok t1 =>
        ([.timeRead 0, .runUdf 1 ds "SumSigUDF", .timeRead 1,
          .printVal (t1 - t0)], none)

/-- The whole script, line by line.  Each external call is recorded in the
trace when it is made; a raised exception aborts the rest of the script —
except that leaving the `with` body, normally or exceptionally, always runs
the scope's exit action first (Python `with` semantics), after which a body
exception keeps propagating.  There is no other error handling. -/
def script (env : Env ε) : List Event × Option ε :=
  match env.mkContext with
  | .error e => ([.ctxOpen], some e)
  | .ok ctx =>
    match env.mkAcq scriptParams with
    | .error e => ([.ctxOpen, .acqConstruct scriptParams], some e)
    | .ok aq0 =>
      match env.initAcq aq0 ctx.executor with
      | .error e =>
          ([.ctxOpen, .acqConstruct scriptParams, .acqInit aq0 ctx.executor],
           some e)
      | .ok aq =>
        match env.runUdf 0 aq with
        | .error e =>
            ([.ctxOpen, .acqConstruct scriptParams, .acqInit aq0 ctx.executor,
              .runUdf 0 aq "SumSigUDF"], some e)
        | .ok _ =>
          let pre : List Event :=
            [.ctxOpen, .acqConstruct scriptParams, .acqInit aq0 ctx.executor,
             .runUdf 0 aq "SumSigUDF", .perfEnter "testudf" "profiles"]
          match env.perfEnter with
          | .error e => (pre, some e)
          | .ok _ =>
            let b := withBody env aq
            let tr := pre ++ b.1 ++ [.perfExit]
            match b.2 with
            | some e => (tr, some e)
            | none =>
              match env.closeCtx with
              | .error e => (tr ++ [.ctxClose], some e)
              | .ok _ => (tr ++ [.ctxClose, .printStr "done"], none)

/-- Modelled from the spec: "any failure in context setup, acquisition
initialization, or analysis execution propagates unhandled to the process
boundary".  The first error produced by any external call, in the order the
script makes the calls; `none` when every call succeeds. -/
def firstError (env : Env ε) : Option ε :=
  match env.mkContext with
  | .error e => some e
  | .ok ctx =>
    match env.mkAcq scriptParams with
    | .error e => some e
    | .ok aq0 =>
      match env.initAcq aq0 ctx.executor with
      | .error e => some e
      | .ok aq =>
        match env.runUdf 0 aq with
        | .error e => some e
        | .ok _ =>
          match env.perfEnter with
          | .error e => some e
          | .ok _ =>
            match env.timeNow 0 with
            | .error e => some e
            | .ok _ =>
              match env.runUdf 1 aq with
              | .error e => some e
              | .ok _ =>
                match env.timeNow 1 with
                | .error e => some e
                | .ok _ =>
                  match env.closeCtx with
                  | .error e => some e
                  | .ok _ => none

/-- Is this event the context-construction call? -/
def Event.isCtxOpen : Event → Bool
  | .ctxOpen => true
  | _ => false

/-- Is this event the initialize call? -/
def Event.isAcqInit : Event → Bool
  | .acqInit _ _ => true
  | _ => false

/-- Is this event the `i`-th `run_udf` call? -/
def Event.isRun (i : Nat) : Event → Bool
  | .runUdf j _ _ => j == i
  | _ => false

/-- Is this event any `run_udf` call? -/
def Event.isRunAny : Event → Bool
  | .runUdf _ _ _ => true
  | _ => false

/-- Is this event the `close` call? -/
def Event.isClose : Event → Bool
  | .ctxClose => true
  | _ => false

/-- Is this event entering the perf scope? -/
def Event.isPerfEnter : Event → Bool
  | .perfEnter _ _ => true
  | _ => false

/-- Is this event the perf scope's exit action? -/
def Event.isPerfExit : Event → Bool
  | .perfExit => true
  | _ => false

/-- Is this event the `i`-th timer reading? -/
def Event.isTime (i : Nat) : Event → Bool
  | .timeRead j => j == i
  | _ => false

/-- Is this event a printed output (value or string)? -/
def Event.isOutput : Event → Bool
  | .printVal _ => true
  | .printStr _ => true
  | _ => false

/-- Does this event use the execution context (initialize against its
executor, run a UDF through it, or close it)? -/
def Event.usesCtx : Event → Bool
  | .acqInit _ _ => true
  | .runUdf _ _ _ => true
  | .ctxClose => true
  | _ => false

/-- `p` occurs somewhere in the trace. -/
def occursE (p : Event → Bool) (l : List Event) : Prop :=
  l.any p = true

/-- Whenever `q` occurs in the trace, `p` also occurs, and the first
occurrence of `p` is strictly before the first occurrence of `q`. -/
def beforeE (p q : Event → Bool) (l : List Event) : Prop :=
  occursE q l → occursE p l ∧ l.findIdx p < l.findIdx q

instance (p : Event → Bool) (l : List Event) : Decidable (occursE p l) := by
  unfold occursE; infer_instance

instance (p q : Event → Bool) (l : List Event) : Decidable (beforeE p q l) := by
  unfold beforeE; infer_instance

/-- Is this event a printed numeric value? -/
def Event.isPrint : Event → Bool
  | .printVal _ => true
  | _ => false

/-- The statically determined part of an event: the call site and the
arguments that are literals in the source.  Arguments obtained from earlier
external calls (handles, the executor) or from the timer (the printed
duration) are erased. -/
inductive EventShape where
  | ctxOpen : EventShape
  | acqConstruct : AcqParams → EventShape
  | acqInit : EventShape
  | runUdf : Nat → String → EventShape
  | perfEnter : String → String → EventShape
  | timeRead : Nat → EventShape
  | printVal : EventShape
  | perfExit : EventShape
  | ctxClose : EventShape
  | printStr : String → EventShape
deriving Repr, DecidableEq

/-- Erase an event to its statically determined part. -/
def Event.shape : Event → EventShape
  | .ctxOpen => .ctxOpen
  | .acqConstruct p => .acqConstruct p
  | .acqInit _ _ => .acqInit
  | .runUdf i _ u => .runUdf i u
  | .perfEnter l d => .perfEnter l d
  | .timeRead i => .timeRead i
  | .printVal _ => .printVal
  | .perfExit => .perfExit
  | .ctxClose => .ctxClose
  | .printStr s => .printStr s

/-- A concrete environment in which every external call succeeds. -/
def envOk : Env String :=
  { mkContext := .ok ⟨7⟩
    mkAcq := fun _ => .ok 1
    initAcq := fun a x => .ok (a + x)
    runUdf := fun i d => .ok (Int.ofNat (i + d))
    perfEnter := .ok ()
    timeNow := fun i => .ok (if i == 0 then 100 else 142)
    closeCtx := .ok () }

/-- A second all-successful environment with different handles, results and
timer readings, over a different error type. -/
def envOk2 : Env Unit :=
  { mkContext := .ok ⟨3⟩
    mkAcq := fun _ => .ok 5
    initAcq := fun _ _ => .ok 9
    runUdf := fun _ _ => .ok 0
    perfEnter := .ok ()
    timeNow := fun i => .ok (Int.ofNat i)
    closeCtx := .ok () }

/-- A concrete environment in which the second (timed) UDF run raises and
every other external call succeeds. -/
def envRunFail : Env String :=
  { mkContext := .ok ⟨7⟩
    mkAcq := fun _ => .ok 1
    initAcq := fun a x => .ok (a + x)
    runUdf := fun i _ => if i == 0 then .ok 0 else .error "udf failed"
    perfEnter := .ok ()
    timeNow := fun _ => .ok 100
    closeCtx := .ok () }

/-- Case analysis of the script: its result is one of ten explicit
trace/error pairs, one per external call that can be the first to raise,
plus the fully successful run. -/
theorem script_shape (env : Env ε) :
    (∃ e, env.mkContext = .error e ∧ script env = ([.ctxOpen], some e)) ∨
    (∃ e, script env = ([.ctxOpen, .acqConstruct scriptParams], some e)) ∨
    (∃ a x e, script env =
      ([.ctxOpen, .acqConstruct scriptParams, .acqInit a x], some e)) ∨
    (∃ a x d e, script env =
      ([.ctxOpen, .acqConstruct scriptParams, .acqInit a x,
        .runUdf 0 d "SumSigUDF"], some e)) ∨
    (∃ a x d e, env.perfEnter = .error e ∧ script env =
      ([.ctxOpen, .acqConstruct scriptParams, .acqInit a x,
        .runUdf 0 d "SumSigUDF", .perfEnter "testudf" "profiles"], some e)) ∨
    (∃ a x d e, env.perfEnter = .ok () ∧ env.timeNow 0 = .error e ∧
      script env =
      ([.ctxOpen, .acqConstruct scriptParams, .acqInit a x,
        .runUdf 0 d "SumSigUDF", .perfEnter "testudf" "profiles",
        .timeRead 0, .perfExit], some e)) ∨
    (∃ a x d e, env.perfEnter = .ok () ∧ script env =
      ([.ctxOpen, .acqConstruct scriptParams, .acqInit a x,
        .runUdf 0 d "SumSigUDF", .perfEnter "testudf" "profiles",
        .timeRead 0, .runUdf 1 d "SumSigUDF", .perfExit], some e)) ∨
    (∃ a x d e, env.perfEnter = .ok () ∧ script env =
      ([.ctxOpen, .acqConstruct scriptParams, .acqInit a x,
        .runUdf 0 d "SumSigUDF", .perfEnter "testudf" "profiles",
        .timeRead 0, .runUdf 1 d "SumSigUDF", .timeRead 1, .perfExit],
       some e)) ∨
    (∃ a x d t0 t1 e, env.perfEnter = .ok () ∧ env.timeNow 0 = .ok t0 ∧
      env.timeNow 1 = .ok t1 ∧ script env =
      ([.ctxOpen, .acqConstruct scriptParams, .acqInit a x,
        .runUdf 0 d "SumSigUDF", .perfEnter "testudf" "profiles",
        .timeRead 0, .runUdf 1 d "SumSigUDF", .timeRead 1,
        .printVal (t1 - t0), .perfExit, .ctxClose], some e)) ∨
    (∃ a x d t0 t1, env.perfEnter = .ok () ∧ env.timeNow 0 = .ok t0 ∧
      env.timeNow 1 = .ok t1 ∧ script env =
      ([.ctxOpen, .acqConstruct scriptParams, .acqInit a x,
        .runUdf 0 d "SumSigUDF", .perfEnter "testudf" "profiles",
        .timeRead 0, .runUdf 1 d "SumSigUDF", .timeRead 1,
        .printVal (t1 - t0), .perfExit, .ctxClose, .printStr "done"],
       none)) := by
  rcases h1 : env.mkContext with e | c
  · exact Or.inl ⟨e, rfl, by simp [script, h1]⟩
  rcases h2 : env.mkAcq scriptParams with e | a0
  · exact Or.inr (Or.inl ⟨e, by simp [script, h1, h2]⟩)
  rcases h3 : env.initAcq a0 c.executor with e | aq
  · refine Or.inr (Or.inr (Or.inl ⟨a0, c.executor, e, ?_⟩))
    simp [script, h1, h2, h3]
  rcases h4 : env.runUdf 0 aq with e | r0
  · refine Or.inr (Or.inr (Or.inr (Or.inl ⟨a0, c.executor, aq, e, ?_⟩)))
    simp [script, h1, h2, h3, h4]
  rcases h5 : env.perfEnter with e | u
  · refine Or.inr (Or.inr (Or.inr (Or.inr (Or.inl
      ⟨a0, c.executor, aq, e, rfl, ?_⟩))))
    simp [script, h1, h2, h3, h4, h5]
  cases u
  rcases h6 : env.timeNow 0 with e | t0
  · refine Or.inr (Or.inr (Or.inr (Or.inr (Or.inr (Or.inl
      ⟨a0, c.executor, aq, e, rfl, rfl, ?_⟩)))))
    simp [script, withBody, h1, h2, h3, h4, h5, h6]
  rcases h7 : env.runUdf 1 aq with e | r1
  · refine Or.inr (Or.inr (Or.inr (Or.inr (Or.inr (Or.inr (Or.inl
      ⟨a0, c.executor, aq, e, rfl, ?_⟩))))))
    simp [script, withBody, h1, h2, h3, h4, h5, h6, h7]
  rcases h8 : env.timeNow 1 with e | t1
  · refine Or.inr (Or.inr (Or.inr (Or.inr (Or.inr (Or.inr (Or.inr (Or.inl
      ⟨a0, c.executor, aq, e, rfl, ?_⟩)))))))
    simp [script, withBody, h1, h2, h3, h4, h5, h6, h7, h8]
  rcases h9 : env.closeCtx with e | u9
  · refine Or.inr (Or.inr (Or.inr (Or.inr (Or.inr (Or.inr (Or.inr (Or.inr
      (Or.inl ⟨a0, c.executor, aq, t0, t1, e, rfl, rfl, rfl, ?_⟩))))))))
    simp [script, withBody, h1, h2, h3, h4, h5, h6, h7, h8, h9]
  · refine Or.inr (Or.inr (Or.inr (Or.inr (Or.inr (Or.inr (Or.inr (Or.inr
      (Or.inr ⟨a0, c.executor, aq, t0, t1, rfl, rfl, rfl, ?_⟩))))))))
    simp [script, withBody, h1, h2, h3, h4, h5, h6, h7, h8, h9]

/-- C1: in every execution the trace starts with opening the execution
context (so the context is opened before any other use of it), the
initialize call comes before any `run_udf` call, and the close call comes
only after both the warm-up run and the timed run. -/
theorem C1_orchestration_order (env : Env ε) :
    ((script env).1.head? = some Event.ctxOpen) ∧
    beforeE Event.isCtxOpen Event.usesCtx (script env).1 ∧
    beforeE Event.isAcqInit Event.isRunAny (script env).1 ∧
    beforeE (Event.isRun 0) Event.isClose (script env).1 ∧
    beforeE (Event.isRun 1) Event.isClose (script env).1 := by
  rcases script_shape env with ⟨e, _, hs⟩ | ⟨e, hs⟩ | ⟨a, x, e, hs⟩
    | ⟨a, x, d, e, hs⟩ | ⟨a, x, d, e, _, hs⟩ | ⟨a, x, d, e, _, _, hs⟩
    | ⟨a, x, d, e, _, hs⟩ | ⟨a, x, d, e, _, hs⟩
    | ⟨a, x, d, t0, t1, e, _, _, _, hs⟩ | ⟨a, x, d, t0, t1, _, _, _, hs⟩ <;>
  rw [hs] <;>
  simp [beforeE, occursE, Event.isCtxOpen, Event.usesCtx, Event.isAcqInit,
    Event.isRun, Event.isRunAny, Event.isClose, List.findIdx_cons]

/-- C1 witness: at a concrete all-successful environment the ordering
facts hold non-vacuously. -/
theorem C1_witness :
    occursE Event.isClose (script envOk).1 ∧
    occursE Event.isRunAny (script envOk).1 ∧
    (((script envOk).1.head? = some Event.ctxOpen) ∧
      beforeE Event.isCtxOpen Event.usesCtx (script envOk).1 ∧
      beforeE Event.isAcqInit Event.isRunAny (script envOk).1 ∧
      beforeE (Event.isRun 0) Event.isClose (script envOk).1 ∧
      beforeE (Event.isRun 1) Event.isClose (script envOk).1) :=
  ⟨by decide, by decide, C1_orchestration_order envOk⟩

/-- C2: the script performs no error handling — its propagated error is
exactly the first error produced by any external call, in call order, and
it is `none` exactly when every call it reaches succeeds. -/
theorem C2_first_error_propagates (env : Env ε) :
    (script env).2 = firstError env := by
  rcases h1 : env.mkContext with e | c
  · simp [script, firstError, h1]
  rcases h2 : env.mkAcq scriptParams with e | a0
  · simp [script, firstError, h1, h2]
  rcases h3 : env.initAcq a0 c.executor with e | aq
  · simp [script, firstError, h1, h2, h3]
  rcases h4 : env.runUdf 0 aq with e | r0
  · simp [script, firstError, h1, h2, h3, h4]
  rcases h5 : env.perfEnter with e | u
  · simp [script, firstError, h1, h2, h3, h4, h5]
  rcases h6 : env.timeNow 0 with e | t0
  · simp [script, firstError, withBody, h1, h2, h3, h4, h5, h6]
  rcases h7 : env.runUdf 1 aq with e | r1
  · simp [script, firstError, withBody, h1, h2, h3, h4, h5, h6, h7]
  rcases h8 : env.timeNow 1 with e | t1
  · simp [script, firstError, withBody, h1, h2, h3, h4, h5, h6, h7, h8]
  rcases h9 : env.closeCtx with e | u9 <;>
  simp [script, firstError, withBody, h1, h2, h3, h4, h5, h6, h7, h8, h9]

/-- C3: on a normally completing execution the script makes exactly two
`run_udf` calls, both over the same initialized dataset handle and with the
same UDF; the warm-up run (index 0) comes before the perf scope is entered
and before the first timer reading, and the timed run (index 1) lies inside
the perf scope, between the two timer readings. -/
theorem C3_two_runs (env : Env ε) (hok : (script env).2 = none) :
    ((script env).1.countP Event.isRunAny = 2) ∧
    (∃ ds, Event.runUdf 0 ds "SumSigUDF" ∈ (script env).1 ∧
           Event.runUdf 1 ds "SumSigUDF" ∈ (script env).1) ∧
    beforeE (Event.isRun 0) Event.isPerfEnter (script env).1 ∧
    beforeE (Event.isRun 0) (Event.isTime 0) (script env).1 ∧
    beforeE Event.isPerfEnter (Event.isRun 1) (script env).1 ∧
    beforeE (Event.isTime 0) (Event.isRun 1) (script env).1 ∧
    beforeE (Event.isRun 1) (Event.isTime 1) (script env).1 ∧
    beforeE (Event.isRun 1) Event.isPerfExit (script env).1 := by
  rcases script_shape env with ⟨e, _, hs⟩ | ⟨e, hs⟩ | ⟨a, x, e, hs⟩
    | ⟨a, x, d, e, hs⟩ | ⟨a, x, d, e, _, hs⟩ | ⟨a, x, d, e, _, _, hs⟩
    | ⟨a, x, d, e, _, hs⟩ | ⟨a, x, d, e, _, hs⟩
    | ⟨a, x, d, t0, t1, e, _, _, _, hs⟩ | ⟨a, x, d, t0, t1, _, _, _, hs⟩
  all_goals rw [hs] at hok ⊢
  all_goals simp at hok
  refine ⟨by simp [List.countP_cons, Event.isRunAny], ⟨d, by simp, by simp⟩,
    ?_, ?_, ?_, ?_, ?_, ?_⟩ <;>
  simp [beforeE, occursE, Event.isRun, Event.isTime, Event.isPerfEnter,
    Event.isPerfExit, List.findIdx_cons]

/-- C3 witness: at a concrete all-successful environment the run-count,
shared dataset and ordering facts hold with the hypothesis discharged. -/
theorem C3_witness :
    (script envOk).2 = none ∧
    ((script envOk).1.countP Event.isRunAny = 2) ∧
    (∃ ds, Event.runUdf 0 ds "SumSigUDF" ∈ (script envOk).1 ∧
           Event.runUdf 1 ds "SumSigUDF" ∈ (script envOk).1) ∧
    beforeE (Event.isRun 0) Event.isPerfEnter (script envOk).1 ∧
    beforeE (Event.isRun 0) (Event.isTime 0) (script envOk).1 ∧
    beforeE Event.isPerfEnter (Event.isRun 1) (script envOk).1 ∧
    beforeE (Event.isTime 0) (Event.isRun 1) (script envOk).1 ∧
    beforeE (Event.isRun 1) (Event.isTime 1) (script envOk).1 ∧
    beforeE (Event.isRun 1) Event.isPerfExit (script envOk).1 :=
  ⟨rfl, C3_two_runs envOk rfl⟩

/-- C4: on a normally completing execution the printed duration is exactly
the second timer reading minus the first, with no other computation
applied, and the only event between the two timer readings is the second
`run_udf` call. -/
theorem C4_printed_duration (env : Env ε) (t0 t1 : Int)
    (h0 : env.timeNow 0 = .ok t0) (h1 : env.timeNow 1 = .ok t1)
    (hok : (script env).2 = none) :
    (∃ l1 l2 ds, (script env).1 =
      l1 ++ [Event.timeRead 0, Event.runUdf 1 ds "SumSigUDF",
             Event.timeRead 1] ++ l2) ∧
    (script env).1.filter Event.isPrint = [Event.printVal (t1 - t0)] := by
  rcases script_shape env with ⟨e, _, hs⟩ | ⟨e, hs⟩ | ⟨a, x, e, hs⟩
    | ⟨a, x, d, e, hs⟩ | ⟨a, x, d, e, _, hs⟩ | ⟨a, x, d, e, _, _, hs⟩
    | ⟨a, x, d, e, _, hs⟩ | ⟨a, x, d, e, _, hs⟩
    | ⟨a, x, d, t0x, t1x, e, _, _, _, hs⟩
    | ⟨a, x, d, t0x, t1x, _, h0x, h1x, hs⟩
  all_goals rw [hs] at hok ⊢
  all_goals simp at hok
  rw [h0] at h0x; rw [h1] at h1x
  injection h0x with h0e; injection h1x with h1e
  subst h0e; subst h1e
  constructor
  · exact ⟨[.ctxOpen, .acqConstruct scriptParams, .acqInit a x,
      .runUdf 0 d "SumSigUDF", .perfEnter "testudf" "profiles"],
      [.printVal (t1 - t0), .perfExit, .ctxClose, .printStr "done"], d, rfl⟩
  · simp [List.filter, Event.isPrint]

/-- C4 witness: at a concrete all-successful environment, with timer
readings 100 and 142, the printed value is 42 and the two readings are
adjacent to the timed run. -/
theorem C4_witness :
    envOk.timeNow 0 = .ok 100 ∧ envOk.timeNow 1 = .ok 142 ∧
    (script envOk).2 = none ∧
    ((∃ l1 l2 ds, (script envOk).1 =
      l1 ++ [Event.timeRead 0, Event.runUdf 1 ds "SumSigUDF",
             Event.timeRead 1] ++ l2) ∧
     (script envOk).1.filter Event.isPrint = [Event.printVal (142 - 100)]) :=
  ⟨rfl, rfl, rfl, C4_printed_duration envOk 100 142 rfl rfl rfl⟩

/-- C5 counterexample: in a concrete execution where the timed UDF run
raises, the script exits with that exception but never invokes the
context's close operation and never prints the completion marker — so
close and the marker are not reached on every exit path. -/
theorem C5_counterexample :
    (script envRunFail).2 = some "udf failed" ∧
    (script envRunFail).1.any Event.isClose = false ∧
    (script envRunFail).1.any Event.isOutput = false := by
  refine ⟨?_, by decide, by decide⟩
  rfl

/-- C5 (amended): on every normally completing execution the context's
close operation is invoked and the completion marker `"done"` is then
printed as the final output; executions aborted by an exception propagate
it without this shutdown sequence. -/
theorem C5_close_then_marker (env : Env ε) (hok : (script env).2 = none) :
    ∃ l, (script env).1 = l ++ [Event.ctxClose, Event.printStr "done"] := by
  rcases script_shape env with ⟨e, _, hs⟩ | ⟨e, hs⟩ | ⟨a, x, e, hs⟩
    | ⟨a, x, d, e, hs⟩ | ⟨a, x, d, e, _, hs⟩ | ⟨a, x, d, e, _, _, hs⟩
    | ⟨a, x, d, e, _, hs⟩ | ⟨a, x, d, e, _, hs⟩
    | ⟨a, x, d, t0, t1, e, _, _, _, hs⟩ | ⟨a, x, d, t0, t1, _, _, _, hs⟩
  all_goals rw [hs] at hok ⊢
  all_goals simp at hok
  exact ⟨[.ctxOpen, .acqConstruct scriptParams, .acqInit a x,
    .runUdf 0 d "SumSigUDF", .perfEnter "testudf" "profiles",
    .timeRead 0, .runUdf 1 d "SumSigUDF", .timeRead 1,
    .printVal (t1 - t0), .perfExit], rfl⟩

/-- C5 witness: at a concrete all-successful environment the trace ends
with the close call followed by the `"done"` marker. -/
theorem C5_witness :
    (script envOk).2 = none ∧
    ∃ l, (script envOk).1 = l ++ [Event.ctxClose, Event.printStr "done"] :=
  ⟨rfl, C5_close_then_marker envOk rfl⟩

/-- C6: whenever the perf scope is entered (the enter call is made and
succeeds), the scope's exit action occurs in the trace — both when the
timed run and timer reads complete normally and when one of them raises
out of the scope's body. -/
theorem C6_perf_exit_always (env : Env ε)
    (henter : env.perfEnter = .ok ())
    (hocc : occursE Event.isPerfEnter (script env).1) :
    occursE Event.isPerfExit (script env).1 := by
  rcases script_shape env with ⟨e, _, hs⟩ | ⟨e, hs⟩ | ⟨a, x, e, hs⟩
    | ⟨a, x, d, e, hs⟩ | ⟨a, x, d, e, hen, hs⟩ | ⟨a, x, d, e, _, _, hs⟩
    | ⟨a, x, d, e, _, hs⟩ | ⟨a, x, d, e, _, hs⟩
    | ⟨a, x, d, t0, t1, e, _, _, _, hs⟩ | ⟨a, x, d, t0, t1, _, _, _, hs⟩
  all_goals rw [hs] at hocc ⊢
  all_goals
    first
    | (simp [occursE, Event.isPerfExit]; done)
    | (rw [henter] at hen; exact absurd hen (by simp))
    | (exact absurd hocc (by simp [occursE, Event.isPerfEnter]))

/-- C6 witness: in a concrete execution where the timed UDF run raises
inside the scope, the perf scope was entered and its exit action still
occurs in the trace. -/
theorem C6_witness :
    envRunFail.perfEnter = .ok () ∧
    occursE Event.isPerfEnter (script envRunFail).1 ∧
    occursE Event.isPerfExit (script envRunFail).1 :=
  ⟨rfl, by decide, C6_perf_exit_always envRunFail rfl (by decide)⟩

/-- C7: every acquisition-construction call in any execution of the script
carries exactly the literal parameter record of the source — API endpoint
localhost:8910, data endpoint localhost:9999, navigation shape (256, 256),
trigger mode "exte", the constant-None trigger callback, and 1024 frames
per partition — and no other parameters exist in the record type. -/
theorem C7_acq_params (env : Env ε) (p : AcqParams)
    (hmem : Event.acqConstruct p ∈ (script env).1) :
    p = { api_host := "localhost"
          api_port := 8910
          data_host := "localhost"
          data_port := 9999
          nav_shape := (256, 256)
          trigger_mode := "exte"
          trigger := TriggerFn.constNone
          frames_per_partition := 1024 } := by
  rcases script_shape env with ⟨e, _, hs⟩ | ⟨e, hs⟩ | ⟨a, x, e, hs⟩
    | ⟨a, x, d, e, hs⟩ | ⟨a, x, d, e, _, hs⟩ | ⟨a, x, d, e, _, _, hs⟩
    | ⟨a, x, d, e, _, hs⟩ | ⟨a, x, d, e, _, hs⟩
    | ⟨a, x, d, t0, t1, e, _, _, _, hs⟩ | ⟨a, x, d, t0, t1, _, _, _, hs⟩
  all_goals rw [hs] at hmem
  all_goals simp [scriptParams] at hmem
  all_goals simp [hmem, scriptParams]

/-- C7 witness: in a concrete execution the construction event occurs, and
its parameters are the literal record. -/
theorem C7_witness :
    Event.acqConstruct scriptParams ∈ (script envOk).1 ∧
    scriptParams =
      { api_host := "localhost"
        api_port := 8910
        data_host := "localhost"
        data_port := 9999
        nav_shape := (256, 256)
        trigger_mode := "exte"
        trigger := TriggerFn.constNone
        frames_per_partition := 1024 } :=
  ⟨by decide, C7_acq_params envOk scriptParams (by decide)⟩

/-- C8: the script is branch-free with respect to externally returned
values — any two executions in which no external call raises perform the
same sequence of external calls with the same statically determined
arguments (only handles obtained from earlier calls and timer-derived
values may differ), even across different error types. -/
theorem C8_call_sequence_deterministic {ε1 ε2 : Type}
    (env1 : Env ε1) (env2 : Env ε2)
    (hok1 : (script env1).2 = none) (hok2 : (script env2).2 = none) :
    (script env1).1.map Event.shape = (script env2).1.map Event.shape := by
  rcases script_shape env1 with ⟨e, _, hs⟩ | ⟨e, hs⟩ | ⟨a, x, e, hs⟩
    | ⟨a, x, d, e, hs⟩ | ⟨a, x, d, e, _, hs⟩ | ⟨a, x, d, e, _, _, hs⟩
    | ⟨a, x, d, e, _, hs⟩ | ⟨a, x, d, e, _, hs⟩
    | ⟨a, x, d, t0, t1, e, _, _, _, hs⟩ | ⟨a, x, d, t0, t1, _, _, _, hs⟩
  all_goals rw [hs] at hok1 ⊢
  all_goals simp at hok1
  rcases script_shape env2 with ⟨e, _, hs2⟩ | ⟨e, hs2⟩ | ⟨a2, x2, e, hs2⟩
    | ⟨a2, x2, d2, e, hs2⟩ | ⟨a2, x2, d2, e, _, hs2⟩
    | ⟨a2, x2, d2, e, _, _, hs2⟩ | ⟨a2, x2, d2, e, _, hs2⟩
    | ⟨a2, x2, d2, e, _, hs2⟩ | ⟨a2, x2, d2, t02, t12, e, _, _, _, hs2⟩
    | ⟨a2, x2, d2, t02, t12, _, _, _, hs2⟩
  all_goals rw [hs2] at hok2 ⊢
  all_goals simp at hok2
  simp [Event.shape]

/-- C8 witness: two concrete all-successful environments with different
handles, timer readings and even different error types produce the same
sequence of call shapes. -/
theorem C8_witness :
    (script envOk).2 = none ∧ (script envOk2).2 = none ∧
    (script envOk).1.map Event.shape = (script envOk2).1.map Event.shape :=
  ⟨rfl, rfl, C8_call_sequence_deterministic envOk envOk2 rfl rfl⟩

/-- C9: the trigger callback the script passes to the acquisition
constructor is a constant function — applied to any argument it returns
None, and any two applications agree; being a pure function of the
embedding, it touches no state of the script. -/
theorem C9_trigger_constant :
    (∀ x : PyValue, TriggerFn.apply scriptParams.trigger x = PyValue.pynone) ∧
    (∀ x y : PyValue,
      TriggerFn.apply scriptParams.trigger x =
        TriggerFn.apply scriptParams.trigger y) := by
  constructor
  · intro x
    simp [scriptParams, TriggerFn.apply]
  · intro x y
    simp [scriptParams, TriggerFn.apply]

/-- C10: on a normally completing execution the script's printed output is
exactly the elapsed duration followed by the completion marker, in that
order and nothing else; in particular no analysis result is ever printed
(both `run_udf` results are discarded). -/
theorem C10_outputs_exactly (env : Env ε) (t0 t1 : Int)
    (h0 : env.timeNow 0 = .ok t0) (h1 : env.timeNow 1 = .ok t1)
    (hok : (script env).2 = none) :
    (script env).1.filter Event.isOutput =
      [Event.printVal (t1 - t0), Event.printStr "done"] := by
  rcases script_shape env with ⟨e, _, hs⟩ | ⟨e, hs⟩ | ⟨a, x, e, hs⟩
    | ⟨a, x, d, e, hs⟩ | ⟨a, x, d, e, _, hs⟩ | ⟨a, x, d, e, _, _, hs⟩
    | ⟨a, x, d, e, _, hs⟩ | ⟨a, x, d, e, _, hs⟩
    | ⟨a, x, d, t0x, t1x, e, _, _, _, hs⟩
    | ⟨a, x, d, t0x, t1x, _, h0x, h1x, hs⟩
  all_goals rw [hs] at hok ⊢
  all_goals simp at hok
  rw [h0] at h0x; rw [h1] at h1x
  injection h0x with h0e; injection h1x with h1e
  subst h0e; subst h1e
  simp [List.filter, Event.isOutput]

/-- C10 witness: at a concrete all-successful environment with timer
readings 100 and 142 the printed output is exactly the duration 42
followed by `"done"`. -/
theorem C10_witness :
    envOk.timeNow 0 = .ok 100 ∧ envOk.timeNow 1 = .ok 142 ∧
    (script envOk).2 = none ∧
    (script envOk).1.filter Event.isOutput =
      [Event.printVal (142 - 100), Event.printStr "done"] :=
  ⟨rfl, rfl, rfl, C10_outputs_exactly envOk 100 142 rfl rfl rfl⟩

end TestUdf
